import Mathlib

set_option linter.unusedVariables false

/-!
Shallow embedding of the SortBot training script `src/train.py` and proofs of
the behavioural claims about it.

The script is a thin orchestration layer over Keras.  We embed:

* the hardcoded `Sequential` architecture `new_model` as a list of layer
  descriptors;
* `load_model` over an explicit disk state, with the crucial point that the
  Python clause `except FileNotFoundError or ValueError` evaluates the boolean
  expression `FileNotFoundError or ValueError` (which is `FileNotFoundError`,
  since a class object is truthy), so only `FileNotFoundError` is caught;
* `generate_dataset` with the randomness oracle made explicit
  (`random.randint(2 ** 16, 2 ** 32 - 1)` is inclusive at both ends);
* `test_model` with its running statistic `avg_acc = (avg_acc + test_acc) / 2`;
* `train_model` as a trace of observable events (dataset construction,
  checkpoint writes, evaluation, final save), with the framework `fit` call
  and the per-batch accuracies left as oracles;
* the `__main__` driver loop over halving batch sizes;
* the Python string operations used: `str.replace` (all occurrences,
  left-to-right, non-overlapping) and the format `"{epoch:04d}"` (decimal,
  zero-padded on the left to at least four digits).
-/

namespace SortBot

/-- A layer descriptor of the Keras `Sequential` architecture built in
`train.py`.  Parameters mirror the constructor arguments used in the source. -/
inductive Layer where
  | conv2D (filters : Nat) (kernel : Nat × Nat) (activation : String)
      (inputShape : Option (Nat × Nat × Nat))
  | batchNorm
  | maxPooling2D (pool : Nat × Nat)
  | dropout (rate : ℚ)
  | flatten
  | dense (units : Nat) (activation : String)
  deriving DecidableEq, Repr

/-- A model is identified, for the purposes of this script, by its layered
architecture; trainable parameters live inside the framework and are opaque. -/
structure Model where
  layers : List Layer
  deriving DecidableEq, Repr

/-- Embedding of the module-level
`new_model = Sequential([...])` (train.py lines 36-63): four
convolution + batch-norm + pooling + dropout blocks, then the dense head. -/
def new_model : Model :=
  { layers := [
      .conv2D 32 (3, 3) "relu" (some (256, 256, 3)),
      .batchNorm,
      .maxPooling2D (2, 2),
      .dropout (1/4),
      .conv2D 64 (3, 3) "relu" none,
      .batchNorm,
      .maxPooling2D (2, 2),
      .dropout (1/4),
      .conv2D 128 (3, 3) "relu" none,
      .batchNorm,
      .maxPooling2D (2, 2),
      .dropout (1/4),
      .conv2D 256 (3, 3) "relu" none,
      .batchNorm,
      .maxPooling2D (2, 2),
      .dropout (1/4),
      .flatten,
      .dense 512 "relu",
      .batchNorm,
      .dropout (1/2),
      .dense 8 "softmax" ] }

/-- The output layer of a model: the last layer of the `Sequential` stack. -/
def outputLayer (m : Model) : Option Layer :=
  m.layers.getLast?

/-- The width (number of units) of a layer, when it is a `Dense` layer. -/
def layerWidth : Layer → Option Nat
  | .dense units _ => some units
  | _ => none

/-- Content of a file on disk, as far as model deserialization is concerned:
either a well-formed serialized model, or bytes that fail to deserialize. -/
inductive FileContent where
  | goodModel (m : Model)
  | malformed
  deriving DecidableEq

/-- The disk state: a partial map from paths to file contents. -/
abbrev Disk := String → Option FileContent

/-- A Python exception escaping the embedded code. -/
inductive PyExc where
  | valueError (path : String)
  deriving DecidableEq, Repr

/-- A record emitted through the `logging` module. -/
inductive LogEvent where
  | debug (msg : String)
  | info (msg : String)
  | error (msg : String)
  deriving DecidableEq, Repr

/-- Outcome of the third-party call `tf.keras.models.load_model(path)`,
modelled per the spec's contract for the deserializer: a missing file raises
`FileNotFoundError`, a present but malformed artifact raises `ValueError`,
and a well-formed artifact deserializes to the stored model. -/
inductive LoadOutcome where
  | ok (m : Model)
  | fileNotFound
  | valueError
  deriving DecidableEq, Repr

/-- The modelled framework deserializer (see `LoadOutcome`). -/
def tf_load_model (disk : Disk) (path : String) : LoadOutcome :=
  match disk path with
  | none => .fileNotFound
  | some .malformed => .valueError
  | some (.goodModel m) => .ok m

/-- Embedding of `load_model` (train.py lines 66-76).  The source clause
`except FileNotFoundError or ValueError as exc` evaluates the expression
`FileNotFoundError or ValueError`, i.e. `FileNotFoundError`; hence only
`FileNotFoundError` triggers the fallback to `new_model` (with an error
logged), while a `ValueError` propagates to the caller.  Returns the model
together with the log records emitted. -/
def load_model (disk : Disk) (model_path : String) :
    Except PyExc (Model × List LogEvent) :=
  match tf_load_model disk model_path with
  | .ok m => .ok (m, [])
  | .fileNotFound =>
      .ok (new_model, [.error ("Error loading model: " ++ model_path)])
  | .valueError => .error (.valueError model_path)

/-- Embedding of `random.randint(lo, hi)`: an integer drawn uniformly from
the closed range `[lo, hi]` (both ends inclusive).  The randomness is an
oracle `r`; every value of `r` yields a member of the range and every member
of the range is reached. -/
def randint (lo hi : Nat) (r : Nat) : Nat :=
  lo + r % (hi - lo + 1)

/-- The dataset object built by `image_dataset_from_directory`, recorded by
its arguments. -/
structure DatasetSpec where
  dir : String
  seed : Nat
  imageSize : Nat × Nat
  batchSize : Nat
  deriving DecidableEq, Repr

/-- Embedding of `generate_dataset` (train.py lines 79-91): selects one of the
two hardcoded directories from the `training` flag (default `true`) and builds
a dataset with a fresh random seed from `random.randint(2 ** 16, 2 ** 32 - 1)`.
`r` is the randomness oracle consumed by that call. -/
def generate_dataset (r : Nat) (batch_size : Nat) (training : Bool := true) :
    DatasetSpec :=
  let data_dir :=
    if training then "./dataset-resized/" else "./dataset-resized/val"
  { dir := data_dir
    seed := randint (2 ^ 16) (2 ^ 32 - 1) r
    imageSize := (256, 256)
    batchSize := batch_size }

/-- The running statistic maintained by the evaluation loop of `test_model`:
starting from `avg_acc = 0`, each evaluation result is blended in by
`avg_acc = (avg_acc + test_acc) / 2`. -/
def testAvg (accs : List ℚ) : ℚ :=
  accs.foldl (fun avg_acc test_acc => (avg_acc + test_acc) / 2) 0

/-- Embedding of `test_model` (train.py lines 94-112): loads the model from
`model_path` (via `load_model`, so a missing file falls back to `new_model`
and a malformed file raises `ValueError`), builds one test dataset with
`training = false` and batch size 256, evaluates it `times` times (default 10)
and returns the evaluated model together with the final running statistic.
`evalAcc m ds i` is the framework oracle giving the accuracy reported by the
`i`-th `model.evaluate` call; `r` is the randomness oracle of the dataset. -/
def test_model (disk : Disk) (r : Nat)
    (evalAcc : Model → DatasetSpec → Nat → ℚ)
    (model_path : String) (times : Nat := 10) :
    Except PyExc (Model × ℚ) := do
  let (model, _log) ← load_model disk model_path
  let test_dataset := generate_dataset r 256 false
  let accs := (List.range times).map (evalAcc model test_dataset)
  pure (model, testAvg accs)

/-- The character for one decimal digit, as produced by Python's decimal
formatting. -/
def digitChar : Nat → Char
  | 0 => '0'
  | 1 => '1'
  | 2 => '2'
  | 3 => '3'
  | 4 => '4'
  | 5 => '5'
  | 6 => '6'
  | 7 => '7'
  | 8 => '8'
  | _ => '9'

/-- Decimal digit characters of `n`, most significant first, with enough fuel;
`decCharsFuel fuel 0 = []` (the zero case is handled by the padding below,
exactly as Python's `format(0, "04d") = "0000"`). -/
def decCharsFuel : Nat → Nat → List Char
  | 0, _ => []
  | fuel + 1, n => if n = 0 then [] else decCharsFuel fuel (n / 10) ++ [digitChar (n % 10)]

/-- Decimal digit characters of `n`, most significant first ( `[]` for `0`). -/
def decChars (n : Nat) : List Char :=
  decCharsFuel n n

/-- Left-pad a character list with `'0'` to length at least four: the
behaviour of Python's format specification `04d` applied to a nonnegative
integer's digit string. -/
def leftPad4 (s : List Char) : List Char :=
  List.replicate (4 - s.length) '0' ++ s

/-- Embedding of `"{epoch:04d}".format`-style substitution for a nonnegative
integer: the decimal digits of `epoch`, zero-padded on the left to at least
four characters. -/
def format04 (epoch : Nat) : List Char :=
  leftPad4 (decChars epoch)

/-- Embedding of `checkpoint_path.format(epoch=e)` for the template
`"./training/cp-{epoch:04d}.weights.h5"` (train.py line 129). -/
def cpPath (epoch : Nat) : String :=
  ⟨"./training/cp-".data ++ format04 epoch ++ ".weights.h5".data⟩

/-- One step of Python's `str.replace`, on character lists with explicit fuel
(the fuel is an upper bound on the scanned length; `pyReplace` below supplies
enough).  Occurrences of `pat` are found left to right, each match is replaced
by `repl`, and scanning resumes after the matched occurrence
(non-overlapping). -/
def pyReplaceFuel (pat repl : List Char) : Nat → List Char → List Char
  | _, [] => []
  | 0, s => s
  | fuel + 1, c :: cs =>
      if pat ≠ [] ∧ (c :: cs).take pat.length = pat then
        repl ++ pyReplaceFuel pat repl fuel ((c :: cs).drop pat.length)
      else
        c :: pyReplaceFuel pat repl fuel cs

/-- Embedding of Python's `s.replace(pat, repl)` for a nonempty pattern:
every non-overlapping occurrence of `pat` in `s`, scanned left to right, is
replaced by `repl`. -/
def pyReplace (s pat repl : String) : String :=
  ⟨pyReplaceFuel pat.data repl.data s.data.length s.data⟩

/-- An observable event of a `train_model` run, in program order. -/
inductive Event where
  | modelLoaded (path : String) (m : Model)
  | compiled
  | datasetLoaded (d : DatasetSpec)
  | checkpointSaved (path : String)
  | evaluated (m : Model) (avg : ℚ)
  | modelSaved (path : String) (m : Model)
  deriving DecidableEq, Repr

/-- Embedding of `train_model` (train.py lines 115-157) as the ordered trace
of its observable events.  Oracles: `r1`/`r2`/`r3` are the randomness consumed
by the three `generate_dataset` calls (training set, validation set, and the
test set inside `test_model`); `fit m d vd` is the model produced by the
framework's `model.fit`; `completedEpochs` is the number of epochs the fit
loop actually completed (equal to `epochs` when early stopping never fires);
`evalAcc` is the accuracy oracle of `test_model`.  The trace records: the
`load_model` result, compilation, the two dataset constructions, the explicit
epoch-0 checkpoint written before fitting, one checkpoint per completed epoch
(the `ModelCheckpoint` callback with `save_freq = 'epoch'` formats the path
with epoch numbers starting at 1), the optional evaluation (when
`test = true`, as defaulted), and the final `model.save` under
`model_path.replace("h5", "keras")`. -/
def train_model (disk : Disk) (r1 r2 r3 : Nat)
    (fit : Model → DatasetSpec → DatasetSpec → Model)
    (completedEpochs : Nat)
    (evalAcc : Model → DatasetSpec → Nat → ℚ)
    (model_path : String) (epochs : Nat := 100) (batch_size : Nat := 32)
    (test : Bool := true) :
    Except PyExc (List Event) := do
  let (model, _log) ← load_model disk model_path
  let dataset := generate_dataset r1 batch_size
  let validation_dataset := generate_dataset r2 batch_size
  let trained := fit model dataset validation_dataset
  let fitCheckpoints :=
    (List.range completedEpochs).map (fun i => Event.checkpointSaved (cpPath (i + 1)))
  let testEvents ←
    if test then do
      let (m, avg) ← test_model disk r3 evalAcc model_path 10
      pure [Event.evaluated m avg]
    else
      pure []
  pure ([Event.modelLoaded model_path model,
         Event.compiled,
         Event.datasetLoaded dataset,
         Event.datasetLoaded validation_dataset,
         Event.checkpointSaved (cpPath 0)]
        ++ fitCheckpoints
        ++ testEvents
        ++ [Event.modelSaved (pyReplace model_path "h5" "keras") trained])

/-- The checkpoint path written by an event, if it is a checkpoint write. -/
def checkpointPath? : Event → Option String
  | .checkpointSaved p => some p
  | _ => none

/-- The dataset recorded by an event, if it is a dataset construction. -/
def dataset? : Event → Option DatasetSpec
  | .datasetLoaded d => some d
  | _ => none

/-- An action of the `__main__` driver loop, in program order. -/
inductive DriverEvent where
  | trainModel (modelPath : String) (epochs : Nat) (batchSize : Nat)
  | plotHistory
  deriving DecidableEq, Repr

/-- Embedding of the `__main__` driver (train.py lines 184-191): starting
from the given batch size, while `batch > 1` it calls
`train_model("sortbot_alpha_new.h5", epochs=100, batch_size=batch)` followed
by `plot_history`, then halves the batch size with `batch //= 2`. -/
def driverEvents (batch : Nat) : List DriverEvent :=
  if h : 1 < batch then
    .trainModel "sortbot_alpha_new.h5" 100 batch :: .plotHistory ::
      driverEvents (batch / 2)
  else
    []
termination_by batch
decreasing_by exact Nat.div_lt_self (by omega) (by omega)

/-! ### Properties of the decimal formatting used for checkpoint paths -/

theorem digitChar_inj {a b : Nat} (ha : a < 10) (hb : b < 10)
    (h : digitChar a = digitChar b) : a = b := by
  revert h
  interval_cases a <;> interval_cases b <;> decide

theorem decCharsFuel_congr :
    ∀ fuel fuel' n : Nat, n ≤ fuel → n ≤ fuel' →
      decCharsFuel fuel n = decCharsFuel fuel' n := by
  intro fuel
  induction fuel with
  | zero =>
    intro fuel' n hn _
    interval_cases n
    cases fuel' <;> simp [decCharsFuel]
  | succ f ih =>
    intro fuel' n hn hn'
    cases fuel' with
    | zero =>
      interval_cases n
      simp [decCharsFuel]
    | succ f' =>
      by_cases h0 : n = 0
      · subst h0
        simp [decCharsFuel]
      · have hlt : n / 10 < n := Nat.div_lt_self (Nat.pos_of_ne_zero h0) (by omega)
        simp only [decCharsFuel, if_neg h0]
        rw [ih f' (n / 10) (by omega) (by omega)]

@[simp] theorem decChars_zero : decChars 0 = [] := rfl

theorem decChars_pos (n : Nat) (hn : 0 < n) :
    decChars n = decChars (n / 10) ++ [digitChar (n % 10)] := by
  have hlt : n / 10 < n := Nat.div_lt_self hn (by omega)
  obtain ⟨m, rfl⟩ : ∃ m, n = m + 1 := ⟨n - 1, by omega⟩
  show decCharsFuel (m + 1) (m + 1) = _
  simp only [decCharsFuel, if_neg (Nat.succ_ne_zero m)]
  rw [decCharsFuel_congr m ((m + 1) / 10) ((m + 1) / 10) (by omega) le_rfl]
  rfl

theorem decChars_head :
    ∀ n : Nat, 0 < n → ∃ c cs, decChars n = c :: cs ∧ (c == '0') = false := by
  intro n
  induction n using Nat.strong_induction_on with
  | _ n ih =>
    intro hn
    rcases Nat.lt_or_ge n 10 with h10 | h10
    · have hq : n / 10 = 0 := Nat.div_eq_of_lt h10
      have hm : n % 10 = n := Nat.mod_eq_of_lt h10
      refine ⟨digitChar n, [], ?_, ?_⟩
      · rw [decChars_pos n hn, hq, hm, decChars_zero, List.nil_append]
      · interval_cases n <;> decide
    · obtain ⟨c, cs, hcs, hc⟩ :=
        ih (n / 10) (Nat.div_lt_self hn (by omega)) (by omega)
      refine ⟨c, cs ++ [digitChar (n % 10)], ?_, hc⟩
      rw [decChars_pos n hn, hcs]
      simp

theorem dropWhile_replicate_zero (k : Nat) (s : List Char) :
    List.dropWhile (fun c => c == '0') (List.replicate k '0' ++ s)
      = List.dropWhile (fun c => c == '0') s := by
  induction k with
  | zero => rfl
  | succ k ih => simp [List.replicate_succ, List.dropWhile_cons, ih]

theorem dropWhile_format04 (n : Nat) :
    List.dropWhile (fun c => c == '0') (format04 n) = decChars n := by
  rcases Nat.eq_zero_or_pos n with rfl | hn
  · decide
  · obtain ⟨c, cs, hcs, hc⟩ := decChars_head n hn
    unfold format04 leftPad4
    rw [dropWhile_replicate_zero, hcs, List.dropWhile_cons, hc]
    simp

theorem decChars_injective : ∀ a b : Nat, decChars a = decChars b → a = b := by
  intro a
  induction a using Nat.strong_induction_on with
  | _ a ih =>
    intro b h
    rcases Nat.eq_zero_or_pos a with rfl | ha
    · rcases Nat.eq_zero_or_pos b with rfl | hb
      · rfl
      · obtain ⟨c, cs, hcs, _⟩ := decChars_head b hb
        rw [hcs, decChars_zero] at h
        exact absurd h (by simp)
    · rcases Nat.eq_zero_or_pos b with rfl | hb
      · obtain ⟨c, cs, hcs, _⟩ := decChars_head a ha
        rw [hcs, decChars_zero] at h
        exact absurd h (by simp)
      · rw [decChars_pos a ha, decChars_pos b hb] at h
        obtain ⟨h1, h2⟩ := List.append_inj' h (by simp)
        have hd : a % 10 = b % 10 :=
          digitChar_inj (Nat.mod_lt _ (by omega)) (Nat.mod_lt _ (by omega))
            (by simpa using h2)
        have hq : a / 10 = b / 10 :=
          ih (a / 10) (Nat.div_lt_self ha (by omega)) (b / 10) h1
        omega

theorem format04_injective {a b : Nat} (h : format04 a = format04 b) : a = b := by
  have h' := congrArg (List.dropWhile (fun c => c == '0')) h
  rw [dropWhile_format04, dropWhile_format04] at h'
  exact decChars_injective a b h'

theorem cpPath_injective : Function.Injective cpPath := by
  intro a b h
  have hdata : "./training/cp-".data ++ format04 a ++ ".weights.h5".data
      = "./training/cp-".data ++ format04 b ++ ".weights.h5".data :=
    congrArg String.data h
  rw [List.append_assoc, List.append_assoc] at hdata
  have h1 := List.append_cancel_left hdata
  obtain ⟨h2, -⟩ := List.append_inj' h1 rfl
  exact format04_injective h2

/-! ### Inversion of a successful `train_model` run -/

/-- A successful `train_model` run arises from a successful `load_model`, and
its trace has exactly the shape laid down by the source: load, compile, the
two dataset constructions, the epoch-0 checkpoint, one checkpoint per
completed epoch, the optional evaluation, and the final save under the
rewritten path. -/
theorem train_model_ok_elim (disk : Disk) (r1 r2 r3 : Nat)
    (fit : Model → DatasetSpec → DatasetSpec → Model) (ce : Nat)
    (evalAcc : Model → DatasetSpec → Nat → ℚ) (mp : String)
    (epochs bs : Nat) (test : Bool) (tr : List Event)
    (h : train_model disk r1 r2 r3 fit ce evalAcc mp epochs bs test = .ok tr) :
    ∃ m log, load_model disk mp = .ok (m, log) ∧
      tr = [Event.modelLoaded mp m, Event.compiled,
            Event.datasetLoaded (generate_dataset r1 bs),
            Event.datasetLoaded (generate_dataset r2 bs),
            Event.checkpointSaved (cpPath 0)]
          ++ (List.range ce).map (fun i => Event.checkpointSaved (cpPath (i + 1)))
          ++ (cond test
               [Event.evaluated m (testAvg ((List.range 10).map
                   (evalAcc m (generate_dataset r3 256 false))))] [])
          ++ [Event.modelSaved (pyReplace mp "h5" "keras")
               (fit m (generate_dataset r1 bs) (generate_dataset r2 bs))] := by
  cases hl : load_model disk mp with
  | error e =>
    simp [train_model, hl, bind, Except.bind] at h
  | ok p =>
    obtain ⟨m, log⟩ := p
    refine ⟨m, log, rfl, ?_⟩
    cases test with
    | false =>
      simp [train_model, hl, bind, Except.bind, pure, Except.pure] at h
      subst h
      simp
    | true =>
      simp [train_model, test_model, hl, bind, Except.bind, pure, Except.pure,
        Except.map] at h
      subst h
      simp

/-! ### The claims -/

/-- C1: for every nonexistent model path, `load_model` falls back to the
hardcoded default architecture `new_model`, logs an error, returns normally
(does not re-raise), and the returned model's output (final Dense) layer has
width 8. -/
theorem c1_load_model_fallback (disk : Disk) (model_path : String)
    (h : disk model_path = none) :
    load_model disk model_path
        = .ok (new_model, [.error ("Error loading model: " ++ model_path)])
      ∧ (outputLayer new_model).bind layerWidth = some 8 := by
  constructor
  · simp [load_model, tf_load_model, h]
  · decide

/-- Witness for C1 at the concrete empty disk and path `"missing.h5"`. -/
theorem c1_load_model_fallback_witness :
    load_model (fun _ => none) "missing.h5"
        = .ok (new_model, [.error ("Error loading model: " ++ "missing.h5")])
      ∧ (outputLayer new_model).bind layerWidth = some 8 :=
  c1_load_model_fallback (fun _ => none) "missing.h5" rfl

/-- C2: in `test_model` the running statistic is updated as
`avg = (avg + new_value) / 2` on each of the (default 10) evaluations;
starting from 0, after exactly one evaluation returning accuracy `a` the
statistic equals `a / 2` — an exponentially-decaying blend, not the
arithmetic mean. -/
theorem c2_test_model_blend (accs : List ℚ) (a : ℚ) (disk : Disk) (r : Nat)
    (evalAcc : Model → DatasetSpec → Nat → ℚ) (model_path : String) (m : Model)
    (h : disk model_path = some (.goodModel m)) :
    testAvg (accs ++ [a]) = (testAvg accs + a) / 2
      ∧ testAvg [a] = a / 2
      ∧ test_model disk r evalAcc model_path 1
          = .ok (m, evalAcc m (generate_dataset r 256 false) 0 / 2)
      ∧ test_model disk r evalAcc model_path
          = .ok (m, testAvg ((List.range 10).map
              (evalAcc m (generate_dataset r 256 false)))) := by
  refine ⟨?_, ?_, ?_, ?_⟩
  · simp [testAvg, List.foldl_append]
  · simp [testAvg]
  · simp [test_model, load_model, tf_load_model, h, bind, Except.bind, pure,
      Except.pure, testAvg, List.range_succ, zero_add]
  · simp [test_model, load_model, tf_load_model, h, bind, Except.bind, pure,
      Except.pure]

/-- Witness for C2 at concrete inputs: a disk storing `new_model` at
`"m.h5"`, accuracy oracle constantly `1`, one evaluation yielding `1 / 2`. -/
theorem c2_test_model_blend_witness :
    testAvg ([1, 1] ++ [(1 : ℚ)]) = (testAvg [1, 1] + 1) / 2
      ∧ testAvg [(1 : ℚ)] = 1 / 2
      ∧ test_model (fun _ => some (.goodModel new_model)) 0 (fun _ _ _ => 1)
            "m.h5" 1
          = .ok (new_model,
              (fun _ _ _ => (1 : ℚ)) new_model (generate_dataset 0 256 false) 0 / 2)
      ∧ test_model (fun _ => some (.goodModel new_model)) 0 (fun _ _ _ => 1)
            "m.h5"
          = .ok (new_model, testAvg ((List.range 10).map
              ((fun _ _ _ => (1 : ℚ)) new_model (generate_dataset 0 256 false)))) :=
  c2_test_model_blend [1, 1] 1 (fun _ => some (.goodModel new_model)) 0
    (fun _ _ _ => 1) "m.h5" new_model rfl

/-- C4: for every batch size and randomness, `generate_dataset` with
`training = false` resolves the data directory to `"./dataset-resized/val"`,
and with `training = true` (which is the default) to `"./dataset-resized/"`. -/
theorem c4_dataset_directories (b r : Nat) :
    (generate_dataset r b false).dir = "./dataset-resized/val"
      ∧ (generate_dataset r b true).dir = "./dataset-resized/"
      ∧ generate_dataset r b = generate_dataset r b true :=
  ⟨rfl, rfl, rfl⟩

/-- C5: the driver loop started at batch size 32 calls `train_model`
(model path `"sortbot_alpha_new.h5"`, 100 epochs) followed by `plot_history`
for exactly the batch sizes 32, 16, 8, 4, 2 in that order, and terminates
once the batch size would drop to 1 (`driverEvents 1 = []`). -/
theorem c5_driver_batch_sequence :
    driverEvents 32 = [
        .trainModel "sortbot_alpha_new.h5" 100 32, .plotHistory,
        .trainModel "sortbot_alpha_new.h5" 100 16, .plotHistory,
        .trainModel "sortbot_alpha_new.h5" 100 8, .plotHistory,
        .trainModel "sortbot_alpha_new.h5" 100 4, .plotHistory,
        .trainModel "sortbot_alpha_new.h5" 100 2, .plotHistory]
      ∧ driverEvents 1 = [] := by
  constructor
  · simp [driverEvents]
  · simp [driverEvents]

/-- C6: the exception filter of `load_model` (the Python clause
`except FileNotFoundError or ValueError`) catches only `FileNotFoundError`:
a missing file triggers the fallback to `new_model`, while a malformed file
(a `ValueError` during deserialization) propagates out of `load_model`. -/
theorem c6_exception_filter_catches_only_fnf (disk : Disk) (model_path : String) :
    (disk model_path = none →
        load_model disk model_path
          = .ok (new_model, [.error ("Error loading model: " ++ model_path)]))
      ∧ (disk model_path = some .malformed →
          load_model disk model_path = .error (.valueError model_path)) := by
  constructor
  · intro h
    simp [load_model, tf_load_model, h]
  · intro h
    simp [load_model, tf_load_model, h]

/-- Witness for C6: both branches of the filter at concrete disks. -/
theorem c6_exception_filter_witness :
    load_model (fun _ => none) "m.h5"
        = .ok (new_model, [.error ("Error loading model: " ++ "m.h5")])
      ∧ load_model (fun _ => some .malformed) "m.h5"
        = .error (.valueError "m.h5") :=
  ⟨(c6_exception_filter_catches_only_fnf (fun _ => none) "m.h5").1 rfl,
   (c6_exception_filter_catches_only_fnf (fun _ => some .malformed) "m.h5").2 rfl⟩

/-- C10: every seed passed to the dataset builder by `generate_dataset` is
`random.randint(2 ** 16, 2 ** 32 - 1)`, an integer of the closed range
`[2 ^ 16, 2 ^ 32 - 1]` — in particular at least 65536 — and every integer of
that closed range (both endpoints included) is reachable. -/
theorem c10_seed_range (r b : Nat) (training : Bool) :
    65536 ≤ (generate_dataset r b training).seed
      ∧ (generate_dataset r b training).seed ≤ 2 ^ 32 - 1
      ∧ (∀ s, 2 ^ 16 ≤ s → s ≤ 2 ^ 32 - 1 →
          ∃ r', randint (2 ^ 16) (2 ^ 32 - 1) r' = s) := by
  have hm : r % (2 ^ 32 - 1 - 2 ^ 16 + 1) < 2 ^ 32 - 1 - 2 ^ 16 + 1 :=
    Nat.mod_lt _ (by norm_num)
  refine ⟨?_, ?_, ?_⟩
  · simp [generate_dataset, randint]
  · simp only [generate_dataset, randint]
    norm_num at hm ⊢
    omega
  · intro s hs1 hs2
    refine ⟨s - 2 ^ 16, ?_⟩
    unfold randint
    norm_num at hs1 hs2 ⊢
    rw [Nat.mod_eq_of_lt (by omega)]
    omega

/-- Witness for C10 at concrete inputs, reaching both endpoints. -/
theorem c10_seed_range_witness :
    65536 ≤ (generate_dataset 7 32 true).seed
      ∧ (generate_dataset 7 32 true).seed ≤ 2 ^ 32 - 1
      ∧ (∃ r', randint (2 ^ 16) (2 ^ 32 - 1) r' = 2 ^ 16)
      ∧ (∃ r', randint (2 ^ 16) (2 ^ 32 - 1) r' = 2 ^ 32 - 1) := by
  obtain ⟨h1, h2, h3⟩ := c10_seed_range 7 32 true
  exact ⟨h1, h2, h3 (2 ^ 16) (by norm_num) (by norm_num),
         h3 (2 ^ 32 - 1) (by norm_num) (by norm_num)⟩

/-- `filterMap` of a constantly-`none` function yields the empty list. -/
theorem filterMap_none {α β : Type} (l : List α) :
    l.filterMap (fun _ => (none : Option β)) = [] := by
  induction l with
  | nil => rfl
  | cons a l ih => simp [List.filterMap_cons, ih]

/-- Projecting checkpoint paths out of a list of checkpoint events recovers
the paths. -/
theorem filterMap_checkpointSaved (f : Nat → String) (l : List Nat) :
    l.filterMap (checkpointPath? ∘ fun i => Event.checkpointSaved (f i))
      = l.map f := by
  induction l with
  | nil => rfl
  | cons a l ih => simp only [List.filterMap_cons, List.map_cons, Function.comp,
      checkpointPath?, ih]

/-- Splitting the first checkpoint path off an epoch range. -/
theorem map_cpPath_range_succ (ce : Nat) :
    (List.range (ce + 1)).map cpPath
      = cpPath 0 :: (List.range ce).map (fun i => cpPath (i + 1)) := by
  rw [List.range_succ_eq_map, List.map_cons, List.map_map]
  rfl

/-- C3: in every successful `train_model` run, the training dataset and the
validation dataset are produced by two `generate_dataset` calls with
identical parameters (the run's batch size, the `training` flag left at its
default `true`), so both resolve to the directory `"./dataset-resized/"`,
agree on batch size and image size, and can differ only in random seed —
there is no held-out split. -/
theorem c3_no_heldout_split (disk : Disk) (r1 r2 r3 : Nat)
    (fit : Model → DatasetSpec → DatasetSpec → Model) (ce : Nat)
    (evalAcc : Model → DatasetSpec → Nat → ℚ) (mp : String)
    (epochs bs : Nat) (test : Bool) (tr : List Event)
    (h : train_model disk r1 r2 r3 fit ce evalAcc mp epochs bs test = .ok tr) :
    tr.filterMap dataset? = [generate_dataset r1 bs, generate_dataset r2 bs]
      ∧ (generate_dataset r1 bs).dir = "./dataset-resized/"
      ∧ (generate_dataset r2 bs).dir = "./dataset-resized/"
      ∧ (generate_dataset r1 bs).batchSize = bs
      ∧ (generate_dataset r2 bs).batchSize = bs
      ∧ (generate_dataset r1 bs).imageSize = (generate_dataset r2 bs).imageSize := by
  obtain ⟨m, log, hl, rfl⟩ := train_model_ok_elim _ _ _ _ _ _ _ _ _ _ _ _ h
  refine ⟨?_, rfl, rfl, rfl, rfl, rfl⟩
  cases test <;>
    simp [dataset?, List.filterMap_append, List.filterMap_cons,
      List.filterMap_map, Function.comp, filterMap_none, cond]

/-- C7: in every `train_model` run that completes `ce` epochs (without early
stopping, `ce` is the requested epoch count), the checkpoint writes are
exactly the epoch-numbered paths for epochs `0, 1, …, ce` — the epoch-0
checkpoint written explicitly before fitting first, then one per completed
epoch — and these paths are pairwise distinct, so exactly `ce + 1` checkpoint
files exist. -/
theorem c7_checkpoint_files (disk : Disk) (r1 r2 r3 : Nat)
    (fit : Model → DatasetSpec → DatasetSpec → Model) (ce : Nat)
    (evalAcc : Model → DatasetSpec → Nat → ℚ) (mp : String)
    (epochs bs : Nat) (test : Bool) (tr : List Event)
    (h : train_model disk r1 r2 r3 fit ce evalAcc mp epochs bs test = .ok tr) :
    tr.filterMap checkpointPath? = (List.range (ce + 1)).map cpPath
      ∧ (tr.filterMap checkpointPath?).length = ce + 1
      ∧ (tr.filterMap checkpointPath?).Nodup := by
  obtain ⟨m, log, hl, rfl⟩ := train_model_ok_elim _ _ _ _ _ _ _ _ _ _ _ _ h
  have hmain :
      (([Event.modelLoaded mp m, Event.compiled,
          Event.datasetLoaded (generate_dataset r1 bs),
          Event.datasetLoaded (generate_dataset r2 bs),
          Event.checkpointSaved (cpPath 0)]
        ++ (List.range ce).map (fun i => Event.checkpointSaved (cpPath (i + 1)))
        ++ (cond test
             [Event.evaluated m (testAvg ((List.range 10).map
                 (evalAcc m (generate_dataset r3 256 false))))] [])
        ++ [Event.modelSaved (pyReplace mp "h5" "keras")
             (fit m (generate_dataset r1 bs) (generate_dataset r2 bs))]).filterMap
          checkpointPath?)
        = (List.range (ce + 1)).map cpPath := by
    rw [map_cpPath_range_succ]
    cases test <;>
      simp [checkpointPath?, List.filterMap_append, List.filterMap_cons,
        filterMap_none, filterMap_checkpointSaved, cond]
  refine ⟨hmain, ?_, ?_⟩
  · rw [hmain]
    simp
  · rw [hmain]
    exact List.Nodup.map cpPath_injective (List.nodup_range _)

/-- C8: in every `train_model` run with `test = true`, the evaluation event
strictly precedes the final save event in the trace, and the evaluated model
is the one `test_model` freshly loads from `model_path` on disk (the stored
artifact, or the fallback `new_model` when the file is missing) — not the
in-memory model `fit` just produced, which is what gets saved; so the
reported average accuracy never reflects the training that just completed. -/
theorem c8_eval_ignores_trained_model (disk : Disk) (r1 r2 r3 : Nat)
    (fit : Model → DatasetSpec → DatasetSpec → Model) (ce : Nat)
    (evalAcc : Model → DatasetSpec → Nat → ℚ) (mp : String)
    (epochs bs : Nat) (tr : List Event)
    (h : train_model disk r1 r2 r3 fit ce evalAcc mp epochs bs true = .ok tr) :
    ∃ m log pre,
      load_model disk mp = .ok (m, log)
        ∧ tr = pre
            ++ [Event.evaluated m (testAvg ((List.range 10).map
                  (evalAcc m (generate_dataset r3 256 false)))),
                Event.modelSaved (pyReplace mp "h5" "keras")
                  (fit m (generate_dataset r1 bs) (generate_dataset r2 bs))]
        ∧ (disk mp = none → m = new_model)
        ∧ (∀ m0, disk mp = some (.goodModel m0) → m = m0) := by
  obtain ⟨m, log, hl, rfl⟩ := train_model_ok_elim _ _ _ _ _ _ _ _ _ _ _ _ h
  refine ⟨m, log,
    [Event.modelLoaded mp m, Event.compiled,
     Event.datasetLoaded (generate_dataset r1 bs),
     Event.datasetLoaded (generate_dataset r2 bs),
     Event.checkpointSaved (cpPath 0)]
      ++ (List.range ce).map (fun i => Event.checkpointSaved (cpPath (i + 1))),
    hl, ?_, ?_, ?_⟩
  · simp [cond]
  · intro hd
    simp [load_model, tf_load_model, hd] at hl
    exact hl.1.symm
  · intro m0 hd
    simp [load_model, tf_load_model, hd] at hl
    exact hl.1.symm

/-- C9: the final model is persisted under `model_path.replace("h5", "keras")`,
which rewrites every occurrence of the substring `"h5"` — not only the file
extension — so a path containing `"h5"` in a directory or base name is
rewritten there too. -/
theorem c9_save_path_replaces_every_h5 (disk : Disk) (r1 r2 r3 : Nat)
    (fit : Model → DatasetSpec → DatasetSpec → Model) (ce : Nat)
    (evalAcc : Model → DatasetSpec → Nat → ℚ) (mp : String)
    (epochs bs : Nat) (test : Bool) (tr : List Event)
    (h : train_model disk r1 r2 r3 fit ce evalAcc mp epochs bs test = .ok tr) :
    (∃ trained,
        tr.getLast? = some (Event.modelSaved (pyReplace mp "h5" "keras") trained))
      ∧ pyReplace "./h5models/sortbot.h5" "h5" "keras"
          = "./kerasmodels/sortbot.keras"
      ∧ pyReplace "sortbot_alpha_new.h5" "h5" "keras" = "sortbot_alpha_new.keras" := by
  obtain ⟨m, log, hl, rfl⟩ := train_model_ok_elim _ _ _ _ _ _ _ _ _ _ _ _ h
  refine ⟨⟨fit m (generate_dataset r1 bs) (generate_dataset r2 bs), ?_⟩,
    by decide, by decide⟩
  rw [List.getLast?_concat]

/-! ### Concrete runs used by the witnesses -/

/-- A disk with no files: every load falls back to `new_model`. -/
def demoDisk : Disk := fun _ => none

/-- A trivial training oracle: `fit` returns its input model unchanged. -/
def demoFit : Model → DatasetSpec → DatasetSpec → Model := fun m _ _ => m

/-- A constant accuracy oracle. -/
def demoEval : Model → DatasetSpec → Nat → ℚ := fun _ _ _ => 1

/-- The trace of a concrete successful `train_model` run (3 completed epochs,
batch size 32, `test = true`). -/
def demoTrace : List Event :=
  (train_model demoDisk 0 0 0 demoFit 3 demoEval "sortbot_alpha_new.h5" 100 32
      true).toOption.getD []

/-- Witness for C3 at the concrete run `demoTrace`. -/
theorem c3_no_heldout_split_witness :
    demoTrace.filterMap dataset? = [generate_dataset 0 32, generate_dataset 0 32]
      ∧ (generate_dataset 0 32).dir = "./dataset-resized/"
      ∧ (generate_dataset 0 32).dir = "./dataset-resized/"
      ∧ (generate_dataset 0 32).batchSize = 32
      ∧ (generate_dataset 0 32).batchSize = 32
      ∧ (generate_dataset 0 32).imageSize = (generate_dataset 0 32).imageSize :=
  c3_no_heldout_split demoDisk 0 0 0 demoFit 3 demoEval "sortbot_alpha_new.h5"
    100 32 true demoTrace rfl

/-- Witness for C7 at the concrete run `demoTrace`: 3 completed epochs give
exactly 4 pairwise-distinct checkpoint paths. -/
theorem c7_checkpoint_files_witness :
    demoTrace.filterMap checkpointPath? = (List.range (3 + 1)).map cpPath
      ∧ (demoTrace.filterMap checkpointPath?).length = 3 + 1
      ∧ (demoTrace.filterMap checkpointPath?).Nodup :=
  c7_checkpoint_files demoDisk 0 0 0 demoFit 3 demoEval "sortbot_alpha_new.h5"
    100 32 true demoTrace rfl

/-- Witness for C8 at the concrete run `demoTrace`. -/
theorem c8_eval_ignores_trained_model_witness :
    ∃ m log pre,
      load_model demoDisk "sortbot_alpha_new.h5" = .ok (m, log)
        ∧ demoTrace = pre
            ++ [Event.evaluated m (testAvg ((List.range 10).map
                  (demoEval m (generate_dataset 0 256 false)))),
                Event.modelSaved (pyReplace "sortbot_alpha_new.h5" "h5" "keras")
                  (demoFit m (generate_dataset 0 32) (generate_dataset 0 32))]
        ∧ (demoDisk "sortbot_alpha_new.h5" = none → m = new_model)
        ∧ (∀ m0, demoDisk "sortbot_alpha_new.h5" = some (.goodModel m0) → m = m0) :=
  c8_eval_ignores_trained_model demoDisk 0 0 0 demoFit 3 demoEval
    "sortbot_alpha_new.h5" 100 32 demoTrace rfl

/-- Witness for C9 at the concrete run `demoTrace`. -/
theorem c9_save_path_replaces_every_h5_witness :
    (∃ trained,
        demoTrace.getLast?
          = some (Event.modelSaved (pyReplace "sortbot_alpha_new.h5" "h5" "keras")
              trained))
      ∧ pyReplace "./h5models/sortbot.h5" "h5" "keras"
          = "./kerasmodels/sortbot.keras"
      ∧ pyReplace "sortbot_alpha_new.h5" "h5" "keras" = "sortbot_alpha_new.keras" :=
  c9_save_path_replaces_every_h5 demoDisk 0 0 0 demoFit 3 demoEval
    "sortbot_alpha_new.h5" 100 32 true demoTrace rfl

end SortBot
